import Mathlib

/-!
Shallow embedding of the node-cielo client library (src/Cielo.js and
src/CieloConnectionManager.js), together with theorems settling the
specification's claims about device identity, inbound state updates,
outbound command payloads, token refresh, and the reconnect policy.

JavaScript dynamic values that can be a string or a number are modelled by
`JSVal`; a field that can be `undefined` is modelled by `Option`. Stateful
methods are modelled as explicit state-passing functions on the structures
that mirror the classes' fields; `setTimeout` timers are modelled as a list
of pending delays held in the manager state.
-/

namespace NodeCielo

/-- A JavaScript primitive value as it occurs in the frames and payloads of
this protocol: a string or a number (temperatures may be either). -/
inductive JSVal where
  | str : String → JSVal
  | num : Int → JSVal
deriving DecidableEq, Repr

/-- JavaScript `String(v)` conversion (Cielo.js line 660). -/
def JSVal.toStr : JSVal → String
  | .str s => s
  | .num n => toString n

/-- JavaScript truthiness of a primitive: `""` and `0` are falsy. -/
def JSVal.truthy : JSVal → Bool
  | .str s => s ≠ ""
  | .num n => n ≠ 0

/-- `v.isString` holds when the value is a string (JS `typeof v === "string"`). -/
def JSVal.isString : JSVal → Bool
  | .str _ => true
  | .num _ => false

/-- The per-device state machine `CieloHVAC` (Cielo.js lines 755-962).
The command-state fields are `Option JSVal` because `updateState` assigns
whatever the caller passes, including `undefined`. -/
structure CieloHVAC where
  power : Option JSVal := some (.str "off")
  temperature : Option JSVal := some (.num 75)
  mode : Option JSVal := some (.str "auto")
  fanSpeed : Option JSVal := some (.str "auto")
  roomTemperature : Option JSVal := some (.num 75)
  deviceName : String := "HVAC"
  macAddress : String := "0000000000"
  deviceTypeVersion : String := "BI01"
  applianceID : Int := 0
  fwVersion : String := "0.0.0"
deriving DecidableEq, Repr

/-- JavaScript `s.startsWith(p)` (used at Cielo.js line 787), written over
character lists so that it evaluates inside the kernel. -/
def jsStartsWith (s p : String) : Bool :=
  s.toList.take p.toList.length = p.toList

/-- The `CieloHVAC` constructor (Cielo.js lines 775-794): keeps a supplied
`deviceTypeVersion` only when it is truthy (present, non-empty) and starts
with `"BI"` or `"BP"`; otherwise defaults to `"BP01"`. -/
def CieloHVAC.init (macAddress deviceName : String) (applianceID : Int)
    (fwVersion : String) (deviceTypeVersion : Option String) : CieloHVAC :=
  { macAddress := macAddress
    deviceName := deviceName
    applianceID := applianceID
    fwVersion := fwVersion
    deviceTypeVersion :=
      match deviceTypeVersion with
      | some dtv =>
        if dtv ≠ "" && (jsStartsWith dtv "BI" || jsStartsWith dtv "BP") then dtv
        else "BP01"
      | none => "BP01" }

/-- `CieloHVAC.updateState` (Cielo.js lines 914-920): assigns all four
command-state fields unconditionally from the arguments. -/
def CieloHVAC.updateState (h : CieloHVAC)
    (power temperature mode fanSpeed : Option JSVal) : CieloHVAC :=
  { h with power := power, temperature := temperature, mode := mode,
           fanSpeed := fanSpeed }

/-- `CieloHVAC.updateRoomTemperature` (Cielo.js lines 927-929). -/
def CieloHVAC.updateRoomTemperature (h : CieloHVAC)
    (roomTemperature : Option JSVal) : CieloHVAC :=
  { h with roomTemperature := roomTemperature }

/-- Getter `getPower` (Cielo.js lines 801-803). -/
def CieloHVAC.getPower (h : CieloHVAC) : Option JSVal := h.power

/-- Getter `getTemperature` (Cielo.js lines 810-812). -/
def CieloHVAC.getTemperature (h : CieloHVAC) : Option JSVal := h.temperature

/-- Getter `getMode` (Cielo.js lines 819-821). -/
def CieloHVAC.getMode (h : CieloHVAC) : Option JSVal := h.mode

/-- Getter `getFanSpeed` (Cielo.js lines 828-830). -/
def CieloHVAC.getFanSpeed (h : CieloHVAC) : Option JSVal := h.fanSpeed

/-- Getter `getMacAddress` (Cielo.js lines 846-848). -/
def CieloHVAC.getMacAddress (h : CieloHVAC) : String := h.macAddress

/-- Getter `getDeviceTypeVersion` (Cielo.js lines 854-856). -/
def CieloHVAC.getDeviceTypeVersion (h : CieloHVAC) : String := h.deviceTypeVersion

/-- Getter `getApplianceID` (Cielo.js lines 863-865). -/
def CieloHVAC.getApplianceID (h : CieloHVAC) : Int := h.applianceID

/-- Getter `getFwVersion` (Cielo.js lines 872-874). -/
def CieloHVAC.getFwVersion (h : CieloHVAC) : String := h.fwVersion

/-- Association-list write, modelling `obj[key] = value` on the
`#previousPowerStates` plain object. Values are `Option JSVal` because the
message handler stores `status.power`, which may be `undefined`. -/
def ppsSet (m : List (String × Option JSVal)) (k : String) (v : Option JSVal) :
    List (String × Option JSVal) :=
  match m with
  | [] => [(k, v)]
  | (k0, v0) :: rest =>
    if k0 = k then (k, v) :: rest else (k0, v0) :: ppsSet rest k v

/-- Association-list read, modelling `obj[key]` on `#previousPowerStates`:
`none` means the key is absent. -/
def ppsGet (m : List (String × Option JSVal)) (k : String) :
    Option (Option JSVal) :=
  match m with
  | [] => none
  | (k0, v0) :: rest => if k0 = k then some v0 else ppsGet rest k

/-- The mutable private fields of `CieloAPIConnection` (Cielo.js lines
18-46) that the embedded methods read or write. -/
structure CieloAPIConnection where
  sessionID : Option String := none
  userID : Option String := none
  accessToken : Option String := none
  refreshToken : Option String := none
  expiresIn : Option Int := none
  commandCount : Nat := 0
  previousPowerStates : List (String × Option JSVal) := []
  hvacs : List CieloHVAC := []
deriving DecidableEq, Repr

/-- The login response data stored by `establishConnection`
(Cielo.js lines 141-152). -/
structure LoginData where
  sessionId : String
  userId : String
  accessToken : String
  refreshToken : String
  expiresIn : Int
deriving DecidableEq, Repr

/-- `establishConnection` (Cielo.js lines 137-154), abstracting the HTTP
login round-trip: on success the five session fields are stored. -/
def establishConnection (conn : CieloAPIConnection) (d : LoginData) :
    CieloAPIConnection :=
  { conn with
    sessionID := some d.sessionId
    userID := some d.userId
    accessToken := some d.accessToken
    refreshToken := some d.refreshToken
    expiresIn := some d.expiresIn }

/-- The `data` object of a successful token-refresh response
(Cielo.js lines 215-220). -/
structure RefreshData where
  accessToken : String
  refreshToken : String
  expiresIn : Int
deriving DecidableEq, Repr

/-- JavaScript truthiness of a possibly-undefined string: `undefined` and
`""` are falsy. -/
def jsTruthyStr : Option String → Bool
  | some s => s ≠ ""
  | none => false

/-- `refreshAccessToken` (Cielo.js lines 186-228), abstracting the HTTP
round-trip: `refreshTokenArg` is the optional argument (JS
`refreshToken || this.#refreshToken` picks the stored token when the
argument is falsy), `body` is the JSON body of the response (`none` when
`body.data` is absent, which is the failure path). Only the three token
fields are updated on success. -/
def refreshAccessToken (conn : CieloAPIConnection)
    (refreshTokenArg : Option String) (body : Option RefreshData) :
    Except String CieloAPIConnection :=
  let tokenToUse : Option String :=
    if jsTruthyStr refreshTokenArg then refreshTokenArg else conn.refreshToken
  if jsTruthyStr tokenToUse then
    match body with
    | some d =>
      .ok { conn with
            accessToken := some d.accessToken
            refreshToken := some d.refreshToken
            expiresIn := some d.expiresIn }
    | none => .error "Token refresh failed"
  else .error "No refresh token available. Must login first."

/-- The nested actions object produced by `#buildCommand`
(Cielo.js lines 662-672). -/
structure ActionsOut where
  power : Option JSVal
  mode : Option JSVal
  fanspeed : Option JSVal
  temp : Option JSVal
  swing : String
  swinginternal : String
  turbo : String
  light : String
  followme : String
deriving DecidableEq, Repr

/-- `#buildCommand` (Cielo.js lines 650-673): selects the new value for the
changed field, the current state for the others; `temp` is converted with
`String(...)` when the performed action is a temperature change. -/
def buildCommand (temp power fanspeed mode : Option JSVal) (isAction : Bool)
    (performedAction : String) (performedValue : JSVal) : ActionsOut :=
  let tempValue : Option JSVal :=
    if isAction && performedAction == "temp" then some (.str performedValue.toStr)
    else temp
  { power := if isAction && performedAction == "power" then some performedValue else power
    mode := if isAction && performedAction == "mode" then some performedValue else mode
    fanspeed := if isAction && performedAction == "fanspeed" then some performedValue else fanspeed
    temp := tempValue
    swing := "adjust"
    swinginternal := ""
    turbo := "off"
    light := "on/off"
    followme := "off" }

/-- The outbound command envelope built by `#buildCommandPayload`
(Cielo.js lines 695-722). -/
structure CommandPayload where
  action : String
  actionSource : String
  applianceType : String
  macAddress : String
  deviceTypeVersion : String
  fwVersion : String
  applianceId : Int
  actionType : String
  actionValue : JSVal
  connection_source : Nat
  user_id : Option String
  preset : Nat
  oldPower : JSVal
  mid : String
  actions : ActionsOut
  application_version : String
  ts : Int
deriving DecidableEq, Repr

/-- `#buildCommandPayload` (Cielo.js lines 683-724): reads `oldPower` from
the previous-power-states map with JS `|| "off"` defaulting, records the new
power value for power commands, increments the command counter, and builds
the envelope. `now` stands for `Math.round(Date.now() / 1000)`. -/
def buildCommandPayload (conn : CieloAPIConnection) (hvac : CieloHVAC)
    (performedAction : String) (performedActionValue : JSVal) (now : Int) :
    CommandPayload × CieloAPIConnection :=
  let macAddress := hvac.getMacAddress
  let oldPower : JSVal :=
    match ppsGet conn.previousPowerStates macAddress with
    | some (some v) => if v.truthy then v else .str "off"
    | _ => .str "off"
  let pps :=
    if performedAction == "power" then
      ppsSet conn.previousPowerStates macAddress (some performedActionValue)
    else conn.previousPowerStates
  let payload : CommandPayload :=
    { action := "actionControl"
      actionSource := "WEB"
      applianceType := "AC"
      macAddress := macAddress
      deviceTypeVersion :=
        if hvac.getDeviceTypeVersion ≠ "" then hvac.getDeviceTypeVersion
        else "BI01"
      fwVersion := hvac.getFwVersion
      applianceId := hvac.getApplianceID
      actionType := performedAction
      actionValue := performedActionValue
      connection_source := 0
      user_id := conn.userID
      preset := 0
      oldPower := oldPower
      mid := "WEB"
      actions := buildCommand hvac.getTemperature hvac.getPower
        hvac.getFanSpeed hvac.getMode true performedAction performedActionValue
      application_version := "1.4.4"
      ts := now }
  (payload, { conn with commandCount := conn.commandCount + 1,
                        previousPowerStates := pps })

/-- `sendCommand` (Cielo.js lines 734-752): builds the payload and writes it
to the socket; the socket write is abstracted away, so the result is the
payload together with the updated connection state. -/
def sendCommand (conn : CieloAPIConnection) (hvac : CieloHVAC)
    (performedAction : String) (performedActionValue : JSVal) (now : Int) :
    CommandPayload × CieloAPIConnection :=
  buildCommandPayload conn hvac performedAction performedActionValue now

/-- The `action` object of an inbound frame (the fields the handler reads;
each may be absent). -/
structure ActionObj where
  power : Option JSVal := none
  temp : Option JSVal := none
  mode : Option JSVal := none
  fanspeed : Option JSVal := none
deriving DecidableEq, Repr

/-- An inbound frame's `action` field as a JS value: either a primitive
(which fails the `typeof === "object"` check) or an object. -/
inductive ActionVal where
  | prim : JSVal → ActionVal
  | obj : ActionObj → ActionVal
deriving DecidableEq, Repr

/-- The `lat_env_var` object of an inbound frame (Cielo.js lines 378-388). -/
structure EnvVar where
  temperature : Option JSVal := none
  humidity : Option JSVal := none
deriving DecidableEq, Repr

/-- A parsed inbound WebSocket frame, with every field the message handler
inspects modelled as possibly absent. -/
structure InboundFrame where
  message_type : Option JSVal := none
  mac_address : Option JSVal := none
  action : Option ActionVal := none
  lat_env_var : Option EnvVar := none
deriving DecidableEq, Repr

/-- The check `data.message_type && typeof data.message_type === "string" &&
data.message_type.length > 0` (Cielo.js lines 355-357). -/
def messageTypeOK : Option JSVal → Bool
  | some (.str s) => s ≠ ""
  | _ => false

/-- The check `data.action && typeof data.action === "object"`
(Cielo.js lines 358-359): passes exactly for a present object. -/
def actionObjOf : Option ActionVal → Option ActionObj
  | some (.obj a) => some a
  | _ => none

/-- Which callbacks the message handler invoked while processing one frame:
the handler itself never invokes the error callback. -/
structure HandlerEvents where
  commandCalled : Option ActionObj := none
  temperatureCalled : Option JSVal := none
  errorCalled : Bool := false
deriving DecidableEq, Repr

/-- The per-device effect of a matching `StateUpdate` frame (Cielo.js lines
370-384): `updateState` with the frame's four action fields, then
`updateRoomTemperature` when `lat_env_var` is present and its `temperature`
is not `undefined`. -/
def stateUpdateHvac (h : CieloHVAC) (status : ActionObj)
    (env : Option EnvVar) : CieloHVAC :=
  let h1 := h.updateState status.power status.temp status.mode status.fanspeed
  match env with
  | some e =>
    match e.temperature with
    | some t => h1.updateRoomTemperature (some t)
    | none => h1
  | none => h1

/-- The WebSocket `message` handler (Cielo.js lines 345-406): validates the
frame shape, and for `StateUpdate` frames applies the update to every device
whose stored MAC is strictly equal (`===`) to the frame's `mac_address`,
records the frame's power value for matching devices, and fires the command
and (conditionally) temperature callbacks. -/
def handleMessage (conn : CieloAPIConnection) (data : InboundFrame) :
    CieloAPIConnection × HandlerEvents :=
  if messageTypeOK data.message_type then
    match actionObjOf data.action with
    | some status =>
      if data.message_type = some (.str "StateUpdate") then
        let conn1 :=
          { conn with
            hvacs := conn.hvacs.map (fun h =>
              if data.mac_address = some (.str h.getMacAddress) then
                stateUpdateHvac h status data.lat_env_var
              else h)
            previousPowerStates :=
              if conn.hvacs.any
                  (fun h => data.mac_address = some (.str h.getMacAddress)) then
                match data.mac_address with
                | some (.str m) => ppsSet conn.previousPowerStates m status.power
                | _ => conn.previousPowerStates
              else conn.previousPowerStates }
        let ev : HandlerEvents :=
          { commandCalled := some status
            temperatureCalled :=
              match data.lat_env_var with
              | some e =>
                match e.temperature with
                | some t => if t.truthy then some t else none
                | none => none
              | none => none
            errorCalled := false }
        (conn1, ev)
      else (conn, {})
    | none => (conn, {})
  else (conn, {})

/-- JavaScript `s.toUpperCase()` over the ASCII range, written character by
character so that it evaluates inside the kernel. -/
def jsToUpper (s : String) : String :=
  String.mk (s.toList.map Char.toUpper)

/-- `findHvac` (CieloConnectionManager.js lines 135-138): case-insensitive
lookup by MAC address over the subscribed devices. -/
def findHvac (hvacs : List CieloHVAC) (macAddress : String) :
    Option CieloHVAC :=
  hvacs.find? (fun h => jsToUpper h.getMacAddress == jsToUpper macAddress)

/-- JavaScript `s.includes(sub)` on strings, used by `handleError`
(CieloConnectionManager.js line 155). -/
def jsIncludes (s sub : String) : Bool :=
  (List.range (s.toList.length + 1)).any
    (fun i => sub.toList = (s.toList.drop i).take sub.toList.length)

/-- The fields of `CieloConnectionManager` (CieloConnectionManager.js lines
16-45) that the reconnect policy reads or writes. `pendingReconnects` holds
the delays of the `setTimeout` reconnect callbacks currently pending:
`scheduleReconnect` stores no timer handle and clears nothing, so each call
appends one pending timer. -/
structure CieloConnectionManager where
  isConnected : Bool := false
  reconnectAttempts : Nat := 0
  maxReconnectAttempts : Nat := 5
  reconnectDelay : Nat := 5000
  autoReconnect : Bool := true
  healthCheckActive : Bool := false
  pendingReconnects : List Nat := []
deriving DecidableEq, Repr

/-- `scheduleReconnect` (CieloConnectionManager.js lines 170-182):
increments the attempt counter, computes `min(reconnectDelay * 2 ^
(attempts - 1), 5 * 60 * 1000)`, and schedules one more pending reconnect
`setTimeout` with that delay. -/
def scheduleReconnect (m : CieloConnectionManager) : CieloConnectionManager :=
  let attempts := m.reconnectAttempts + 1
  let delay := m.reconnectDelay * 2 ^ (attempts - 1)
  let maxDelay := 5 * 60 * 1000
  let actualDelay := min delay maxDelay
  { m with reconnectAttempts := attempts
           pendingReconnects := m.pendingReconnects ++ [actualDelay] }

/-- `handleError` (CieloConnectionManager.js lines 151-165): on an error
whose message contains `"WebSocket"` or `"connection"`, marks the manager
disconnected and, when auto-reconnect is enabled, schedules a reconnect. -/
def handleError (m : CieloConnectionManager) (errMessage : String) :
    CieloConnectionManager :=
  if jsIncludes errMessage "WebSocket" || jsIncludes errMessage "connection" then
    let m1 := { m with isConnected := false }
    if m1.autoReconnect then scheduleReconnect m1 else m1
  else m

/-- One tick of the health-check interval (CieloConnectionManager.js lines
190-202): when not connected, stops the health check and, when
auto-reconnect is enabled, schedules a reconnect. -/
def healthCheckTick (m : CieloConnectionManager) : CieloConnectionManager :=
  if !m.isConnected then
    let m1 := { m with healthCheckActive := false }
    if m1.autoReconnect then scheduleReconnect m1 else m1
  else m

/-- The outcome of one `connect()` call (CieloConnectionManager.js lines
50-98), abstracting the awaited API establishment as a success flag: on
success the manager is connected and the attempt counter resets to 0; on
failure it is disconnected and, when auto-reconnect is enabled and attempts
remain, a reconnect is scheduled. -/
def connectOutcome (m : CieloConnectionManager) (success : Bool) :
    CieloConnectionManager :=
  if success then
    { m with isConnected := true, reconnectAttempts := 0,
             healthCheckActive := true }
  else
    let m1 := { m with isConnected := false }
    if m1.autoReconnect && m1.reconnectAttempts < m1.maxReconnectAttempts then
      scheduleReconnect m1
    else m1

/-! ## Shared helper lemmas -/

/-- A string starting with `"BI"` or `"BP"` is nonempty. -/
theorem startsWith_BI_BP_ne_empty (s : String)
    (h : (jsStartsWith s "BI" || jsStartsWith s "BP") = true) : s ≠ "" := by
  intro hs
  subst hs
  exact absurd h (by decide)

/-! ## Claim theorems -/

/-- C1: the spec requires that simultaneous reconnect triggers schedule at
most one pending reconnect; evaluating the code on a manager that receives a
WebSocket error and a failed health check in the same turn shows two
pending reconnect timers (delays 5000 ms and 10000 ms): `scheduleReconnect`
stores no timer handle and clears nothing before calling `setTimeout`. -/
theorem c1_two_pending_reconnects :
    (healthCheckTick (handleError
      { isConnected := true, reconnectAttempts := 0, maxReconnectAttempts := 5,
        reconnectDelay := 5000, autoReconnect := true, healthCheckActive := true,
        pendingReconnects := [] }
      "WebSocket error")).pendingReconnects = [5000, 10000] := by decide

/-- C7: `sendCommand` (and the payload builder it calls) never changes any
subscribed device's command state: the updated connection returned by the
send carries the device list unchanged, so optimistic local updates are
never applied on the send path. -/
theorem c7_send_preserves_state (conn : CieloAPIConnection) (hvac : CieloHVAC)
    (act : String) (v : JSVal) (now : Int) :
    (sendCommand conn hvac act v now).2.hvacs = conn.hvacs ∧
    (buildCommandPayload conn hvac act v now).2.hvacs = conn.hvacs :=
  ⟨rfl, rfl⟩

/-- C10: every constructed device has a `deviceTypeVersion` starting with
`"BI"` or `"BP"`: the constructor keeps a supplied value exactly when it is
non-empty and has one of those two starts, replaces anything else with
`"BP01"`, the getter returns the stored field, and the outbound command
payload carries that same value (the payload-side `|| "BI01"` fallback
never fires because the stored value is never empty). -/
theorem c10_device_type_version (mac name : String) (aid : Int) (fw : String)
    (dtv : Option String) (conn : CieloAPIConnection) (act : String)
    (v : JSVal) (now : Int) :
    (jsStartsWith (CieloHVAC.init mac name aid fw dtv).deviceTypeVersion "BI" ||
      jsStartsWith (CieloHVAC.init mac name aid fw dtv).deviceTypeVersion "BP") = true ∧
    (CieloHVAC.init mac name aid fw dtv).getDeviceTypeVersion =
      (CieloHVAC.init mac name aid fw dtv).deviceTypeVersion ∧
    (∀ s, dtv = some s → s ≠ "" → (jsStartsWith s "BI" || jsStartsWith s "BP") = true →
      (CieloHVAC.init mac name aid fw dtv).deviceTypeVersion = s) ∧
    (∀ s, dtv = some s → (jsStartsWith s "BI" || jsStartsWith s "BP") = false →
      (CieloHVAC.init mac name aid fw dtv).deviceTypeVersion = "BP01") ∧
    (dtv = none → (CieloHVAC.init mac name aid fw dtv).deviceTypeVersion = "BP01") ∧
    (buildCommandPayload conn (CieloHVAC.init mac name aid fw dtv) act v now).1.deviceTypeVersion =
      (CieloHVAC.init mac name aid fw dtv).deviceTypeVersion := by
  have hstart : (jsStartsWith (CieloHVAC.init mac name aid fw dtv).deviceTypeVersion "BI" ||
      jsStartsWith (CieloHVAC.init mac name aid fw dtv).deviceTypeVersion "BP") = true := by
    cases dtv with
    | none =>
      simp only [CieloHVAC.init]
      decide
    | some s =>
      simp only [CieloHVAC.init]
      split
      case isTrue hcond =>
        simp only [Bool.and_eq_true] at hcond
        exact hcond.2
      case isFalse hcond => decide
  refine ⟨hstart, rfl, ?_, ?_, ?_, ?_⟩
  · intro s hdtv hne hbi
    subst hdtv
    simp only [CieloHVAC.init]
    split
    case isTrue => rfl
    case isFalse hcond =>
      simp [hne, hbi] at hcond
  · intro s hdtv hbi
    subst hdtv
    simp only [CieloHVAC.init]
    split
    case isTrue hcond =>
      simp [hbi] at hcond
    case isFalse hcond => rfl
  · intro hdtv
    subst hdtv
    rfl
  · have hne : (CieloHVAC.init mac name aid fw dtv).deviceTypeVersion ≠ "" :=
      startsWith_BI_BP_ne_empty _ hstart
    unfold buildCommandPayload
    simp only [CieloHVAC.getDeviceTypeVersion]
    rw [if_pos hne]

/-- C10 witness: the constructor keeps `"BI02"`, replaces `"XX07"` with the
default `"BP01"`, and the payload carries the stored value. -/
theorem c10_device_type_version_witness :
    (CieloHVAC.init "m" "n" 0 "f" (some "BI02")).deviceTypeVersion = "BI02" ∧
    (CieloHVAC.init "m" "n" 0 "f" (some "XX07")).deviceTypeVersion = "BP01" ∧
    (buildCommandPayload {} (CieloHVAC.init "m" "n" 0 "f" (some "BI02"))
      "power" (.str "on") 0).1.deviceTypeVersion =
      (CieloHVAC.init "m" "n" 0 "f" (some "BI02")).deviceTypeVersion :=
  ⟨(c10_device_type_version "m" "n" 0 "f" (some "BI02") {} "power" (.str "on") 0).2.2.1
      "BI02" rfl (by decide) (by decide),
   (c10_device_type_version "m" "n" 0 "f" (some "XX07") {} "power" (.str "on") 0).2.2.2.1
      "XX07" rfl (by decide),
   (c10_device_type_version "m" "n" 0 "f" (some "BI02") {} "power" (.str "on") 0).2.2.2.2.2⟩

/-- C5 counterexample: the claim that the temperature inside the nested
actions object of every outbound payload is a string fails on a
freshly-constructed device (whose `#temperature` default is the number 75)
sent a power command: `actions.temp` is the number 75, not a string. -/
theorem c5_counterexample :
    (buildCommandPayload {} (CieloHVAC.init "AA:BB" "AC" 1 "1.0" (some "BP01"))
        "power" (.str "on") 0).1.actions.temp = some (JSVal.num 75) ∧
    ((buildCommandPayload {} (CieloHVAC.init "AA:BB" "AC" 1 "1.0" (some "BP01"))
        "power" (.str "on") 0).1.actions.temp.map JSVal.isString) = some false := by
  decide

/-- C5 (amended): for every temperature-change command the nested
`actions.temp` is the `String(...)` conversion of the input while the
top-level `actionValue` keeps the input unchanged (numeric stays numeric);
for every other command `actions.temp` passes the device's current
temperature value through unchanged, whatever its type. -/
theorem c5_temp_string_conversion (conn : CieloAPIConnection)
    (hvac : CieloHVAC) (v : JSVal) (now : Int) (act : String) :
    ((buildCommandPayload conn hvac "temp" v now).1.actions.temp =
        some (JSVal.str v.toStr) ∧
      (buildCommandPayload conn hvac "temp" v now).1.actionValue = v) ∧
    (act ≠ "temp" →
      (buildCommandPayload conn hvac act v now).1.actions.temp =
        hvac.temperature) := by
  constructor
  · constructor
    · simp [buildCommandPayload, buildCommand]
    · rfl
  · intro hact
    simp [buildCommandPayload, buildCommand, CieloHVAC.getTemperature, hact]

/-- C5 witness: a numeric temperature command carries the string `"72"`
inside `actions` and the number 72 as `actionValue`; a power command leaves
`actions.temp` as the device's stored temperature. -/
theorem c5_temp_string_conversion_witness :
    ((buildCommandPayload {} {} "temp" (.num 72) 0).1.actions.temp =
        some (JSVal.str (JSVal.num 72).toStr) ∧
      (buildCommandPayload {} {} "temp" (.num 72) 0).1.actionValue = .num 72) ∧
    ((buildCommandPayload {} {} "power" (.str "on") 0).1.actions.temp =
      ({} : CieloHVAC).temperature) :=
  ⟨(c5_temp_string_conversion {} {} (.num 72) 0 "power").1,
   (c5_temp_string_conversion {} {} (.str "on") 0 "power").2 (by decide)⟩

/-- C3 counterexample: the claim that fields absent from an inbound update
are left untouched fails: a `StateUpdate` frame carrying only
`{power: "on"}` for a device whose mode is `"cool"` leaves the device with
`mode` equal to `undefined`, not `"cool"` (`updateState` assigns all four
fields unconditionally). -/
theorem c3_counterexample :
    (({ hvacs := [{ mode := some (.str "cool") }] } :
        CieloAPIConnection).hvacs.map (fun d => d.mode)) =
      [some (JSVal.str "cool")] ∧
    ((handleMessage { hvacs := [{ mode := some (.str "cool") }] }
        { message_type := some (.str "StateUpdate")
          mac_address := some (.str "0000000000")
          action := some (.obj { power := some (.str "on") }) }).1.hvacs.map
        (fun d => d.mode)) = [none] := by
  decide

/-- C3 (amended): applying an inbound `StateUpdate` to the matching device
overwrites all four commandState fields with exactly the frame's `action`
fields, so a field absent from the update is overwritten with `undefined`
rather than left untouched (room temperature is separate and updated only
when `lat_env_var` carries one). -/
theorem c3_update_overwrites_all_fields (conn : CieloAPIConnection)
    (h : CieloHVAC) (st : ActionObj) (m : String)
    (hconn : conn.hvacs = [h]) (hm : m = h.macAddress) :
    ((handleMessage conn
        { message_type := some (.str "StateUpdate")
          mac_address := some (.str m)
          action := some (.obj st) }).1.hvacs.map
        (fun d => (d.power, d.temperature, d.mode, d.fanSpeed))) =
      [(st.power, st.temp, st.mode, st.fanspeed)] := by
  subst hm
  simp [handleMessage, messageTypeOK, actionObjOf, hconn, stateUpdateHvac,
    CieloHVAC.getMacAddress, CieloHVAC.updateState]

/-- C3 witness: amended claim applied to a device with mode `"cool"` and a
power-only update: the resulting fields are exactly the frame's fields. -/
theorem c3_update_overwrites_all_fields_witness :
    ((handleMessage { hvacs := [{ mode := some (.str "cool") }] }
        { message_type := some (.str "StateUpdate")
          mac_address := some (.str "0000000000")
          action := some (.obj { power := some (.str "on") }) }).1.hvacs.map
        (fun d => (d.power, d.temperature, d.mode, d.fanSpeed))) =
      [(some (.str "on"), none, none, none)] :=
  c3_update_overwrites_all_fields { hvacs := [{ mode := some (.str "cool") }] }
    { mode := some (.str "cool") } { power := some (.str "on") }
    "0000000000" rfl rfl

/-- C2 counterexample: the claim that identity matching is case-insensitive
for inbound updates fails: a device created from a directory entry with MAC
`c4:5b:be:c4:24:67` receives a `StateUpdate` frame carrying MAC
`C45BBEC42467` with `{power: "on"}`, and the update is not applied — the
handler leaves the connection state unchanged and the device's power stays
`"off"` (the handler compares MACs with strict `===`). -/
theorem c2_counterexample :
    ((handleMessage
        { hvacs := [CieloHVAC.init "c4:5b:be:c4:24:67" "AC" 1 "1.0" (some "BP01")] }
        { message_type := some (.str "StateUpdate")
          mac_address := some (.str "C45BBEC42467")
          action := some (.obj { power := some (.str "on") }) }).1 =
      { hvacs := [CieloHVAC.init "c4:5b:be:c4:24:67" "AC" 1 "1.0" (some "BP01")] }) ∧
    ((handleMessage
        { hvacs := [CieloHVAC.init "c4:5b:be:c4:24:67" "AC" 1 "1.0" (some "BP01")] }
        { message_type := some (.str "StateUpdate")
          mac_address := some (.str "C45BBEC42467")
          action := some (.obj { power := some (.str "on") }) }).1.hvacs.map
        (fun d => d.power)) ≠ [some (JSVal.str "on")] := by
  decide

/-- C2 (amended): device lookup via `findHvac` is case-insensitive (both
MACs uppercased before comparison), but the inbound `StateUpdate` handler
matches device identity by strict string equality: the update is applied to
a subscribed device exactly when the frame's `mac_address` is the identical
string to the device's stored MAC, so a frame whose MAC differs in case or
formatting from the stored MAC leaves that device unchanged. -/
theorem c2_identity_matching (hs : List CieloHVAC) (m1 m2 : String)
    (conn : CieloAPIConnection) (h : CieloHVAC) (st : ActionObj)
    (env : Option EnvVar) (m : String)
    (hupper : jsToUpper m1 = jsToUpper m2) (hconn : conn.hvacs = [h]) :
    findHvac hs m1 = findHvac hs m2 ∧
    (handleMessage conn
        { message_type := some (.str "StateUpdate")
          mac_address := some (.str m)
          action := some (.obj st)
          lat_env_var := env }).1.hvacs =
      [if m = h.macAddress then stateUpdateHvac h st env else h] := by
  constructor
  · unfold findHvac
    rw [hupper]
  · simp only [handleMessage, messageTypeOK, actionObjOf, hconn,
      CieloHVAC.getMacAddress]
    by_cases hm : m = h.macAddress
    · simp [hm]
    · simp [hm, Ne.symm hm]

/-- C2 witness: `findHvac` finds the same device for `c4:5b:be:c4:24:67`
and `C4:5B:BE:C4:24:67`, and the handler applies an update exactly on the
identical MAC string. -/
theorem c2_identity_matching_witness :
    findHvac [CieloHVAC.init "c4:5b:be:c4:24:67" "AC" 1 "1.0" (some "BP01")]
        "c4:5b:be:c4:24:67" =
      findHvac [CieloHVAC.init "c4:5b:be:c4:24:67" "AC" 1 "1.0" (some "BP01")]
        "C4:5B:BE:C4:24:67" ∧
    (handleMessage
        { hvacs := [CieloHVAC.init "c4:5b:be:c4:24:67" "AC" 1 "1.0" (some "BP01")] }
        { message_type := some (.str "StateUpdate")
          mac_address := some (.str "c4:5b:be:c4:24:67")
          action := some (.obj { power := some (.str "on") })
          lat_env_var := none }).1.hvacs =
      [if "c4:5b:be:c4:24:67" =
          (CieloHVAC.init "c4:5b:be:c4:24:67" "AC" 1 "1.0" (some "BP01")).macAddress then
        stateUpdateHvac (CieloHVAC.init "c4:5b:be:c4:24:67" "AC" 1 "1.0" (some "BP01"))
          { power := some (.str "on") } none
      else CieloHVAC.init "c4:5b:be:c4:24:67" "AC" 1 "1.0" (some "BP01")] :=
  c2_identity_matching
    [CieloHVAC.init "c4:5b:be:c4:24:67" "AC" 1 "1.0" (some "BP01")]
    "c4:5b:be:c4:24:67" "C4:5B:BE:C4:24:67"
    { hvacs := [CieloHVAC.init "c4:5b:be:c4:24:67" "AC" 1 "1.0" (some "BP01")] }
    (CieloHVAC.init "c4:5b:be:c4:24:67" "AC" 1 "1.0" (some "BP01"))
    { power := some (.str "on") } none "c4:5b:be:c4:24:67"
    (by decide) rfl

/-- C8: a frame whose type discriminator is missing, non-string, or empty,
whose `action` is missing or not an object, or whose MAC matches no
subscribed device, leaves the whole connection state (every device
included) unchanged and never invokes the error callback: non-matching
frames are silently ignored rather than treated as errors. -/
theorem c8_nonmatching_frames_ignored (conn : CieloAPIConnection)
    (f : InboundFrame)
    (hmiss : messageTypeOK f.message_type = false ∨ actionObjOf f.action = none ∨
      ∀ h ∈ conn.hvacs, f.mac_address ≠ some (.str h.getMacAddress)) :
    (handleMessage conn f).1 = conn ∧
    (handleMessage conn f).2.errorCalled = false := by
  rcases hmiss with hbad | hbad | hnomatch
  · simp only [handleMessage, hbad]
    exact ⟨rfl, rfl⟩
  · cases htype : messageTypeOK f.message_type
    · simp only [handleMessage, htype]
      exact ⟨rfl, rfl⟩
    · simp only [handleMessage, htype, hbad]
      exact ⟨rfl, rfl⟩
  · cases htype : messageTypeOK f.message_type
    · simp only [handleMessage, htype]
      exact ⟨rfl, rfl⟩
    · cases hact : actionObjOf f.action with
      | none =>
        simp only [handleMessage, htype, hact]
        exact ⟨rfl, rfl⟩
      | some status =>
        have hmap : conn.hvacs.map (fun h =>
            if f.mac_address = some (.str h.getMacAddress) then
              stateUpdateHvac h status f.lat_env_var
            else h) = conn.hvacs := by
          have : ∀ a ∈ conn.hvacs, (fun h =>
              if f.mac_address = some (.str h.getMacAddress) then
                stateUpdateHvac h status f.lat_env_var
              else h) a = id a := by
            intro a ha
            simp [hnomatch a ha]
          rw [List.map_congr_left this, List.map_id]
        have hany : conn.hvacs.any
            (fun h => f.mac_address = some (.str h.getMacAddress)) = false := by
          rw [List.any_eq_false]
          intro a ha
          simpa using hnomatch a ha
        by_cases hsu : f.message_type = some (.str "StateUpdate")
        · simp only [handleMessage, htype, hact, if_pos hsu, hmap, hany]
          exact ⟨rfl, rfl⟩
        · simp only [handleMessage, htype, hact, if_neg hsu]
          exact ⟨rfl, rfl⟩

/-- C8 witness: a `StateUpdate` frame whose MAC matches no subscribed
device leaves the connection unchanged and raises no error. -/
theorem c8_nonmatching_frames_ignored_witness :
    ((handleMessage { hvacs := [{}] }
        { message_type := some (.str "StateUpdate")
          mac_address := some (.str "FFFFFFFFFFFF")
          action := some (.obj {}) }).1 =
      { hvacs := [({} : CieloHVAC)] }) ∧
    (handleMessage { hvacs := [{}] }
        { message_type := some (.str "StateUpdate")
          mac_address := some (.str "FFFFFFFFFFFF")
          action := some (.obj {}) }).2.errorCalled = false :=
  c8_nonmatching_frames_ignored { hvacs := [{}] }
    { message_type := some (.str "StateUpdate")
      mac_address := some (.str "FFFFFFFFFFFF")
      action := some (.obj {}) }
    (Or.inr (Or.inr (by decide)))

/-- C4: the outbound payload embeds the device's current state for each of
power, mode, fanspeed and temp that is not the changed field, the new value
for the changed field, the constant protocol fields, and an `oldPower`
equal to the last (truthy) power value recorded for the device's MAC,
defaulting to `"off"` when none was ever recorded. -/
theorem c4_payload_embeds_state (conn : CieloAPIConnection) (hvac : CieloHVAC)
    (act : String) (v : JSVal) (now : Int) :
    (buildCommandPayload conn hvac act v now).1.actionType = act ∧
    (buildCommandPayload conn hvac act v now).1.actionValue = v ∧
    (buildCommandPayload conn hvac act v now).1.actions.power =
      (if act = "power" then some v else hvac.power) ∧
    (buildCommandPayload conn hvac act v now).1.actions.mode =
      (if act = "mode" then some v else hvac.mode) ∧
    (buildCommandPayload conn hvac act v now).1.actions.fanspeed =
      (if act = "fanspeed" then some v else hvac.fanSpeed) ∧
    (buildCommandPayload conn hvac act v now).1.actions.temp =
      (if act = "temp" then some (JSVal.str v.toStr) else hvac.temperature) ∧
    (buildCommandPayload conn hvac act v now).1.actions.swing = "adjust" ∧
    (buildCommandPayload conn hvac act v now).1.actions.turbo = "off" ∧
    (buildCommandPayload conn hvac act v now).1.actions.light = "on/off" ∧
    (buildCommandPayload conn hvac act v now).1.actions.followme = "off" ∧
    (ppsGet conn.previousPowerStates hvac.getMacAddress = none →
      (buildCommandPayload conn hvac act v now).1.oldPower = .str "off") ∧
    (∀ w, ppsGet conn.previousPowerStates hvac.getMacAddress = some (some w) →
      w.truthy = true →
      (buildCommandPayload conn hvac act v now).1.oldPower = w) := by
  refine ⟨rfl, rfl, ?_, ?_, ?_, ?_, rfl, rfl, rfl, rfl, ?_, ?_⟩
  · simp [buildCommandPayload, buildCommand, CieloHVAC.getPower]
  · simp [buildCommandPayload, buildCommand, CieloHVAC.getMode]
  · simp [buildCommandPayload, buildCommand, CieloHVAC.getFanSpeed]
  · simp [buildCommandPayload, buildCommand, CieloHVAC.getTemperature]
  · intro hget
    simp [buildCommandPayload, hget]
  · intro w hget hw
    simp [buildCommandPayload, hget, hw]

/-- C4 witness: `sendCommand(device, "power", "on")` on a device never seen
powered yields actionType `"power"`, actionValue `"on"`, actions.power
`"on"`, and oldPower `"off"`. -/
theorem c4_payload_embeds_state_witness :
    (buildCommandPayload {} {} "power" (.str "on") 0).1.actionType = "power" ∧
    (buildCommandPayload {} {} "power" (.str "on") 0).1.actionValue = .str "on" ∧
    (buildCommandPayload {} {} "power" (.str "on") 0).1.actions.power =
      (if "power" = ("power" : String) then some (.str "on")
       else ({} : CieloHVAC).power) ∧
    (buildCommandPayload {} {} "power" (.str "on") 0).1.oldPower = .str "off" :=
  ⟨(c4_payload_embeds_state {} {} "power" (.str "on") 0).1,
   (c4_payload_embeds_state {} {} "power" (.str "on") 0).2.1,
   (c4_payload_embeds_state {} {} "power" (.str "on") 0).2.2.1,
   (c4_payload_embeds_state {} {} "power" (.str "on") 0).2.2.2.2.2.2.2.2.2.2.1 rfl⟩

/-- After `n` calls to `scheduleReconnect` the attempt counter has advanced
by `n`, the base delay and auto-reconnect flag are unchanged, and one
pending reconnect was appended per call, the i-th with delay
`min(base * 2 ^ (attempts + i), 300000)`. -/
theorem scheduleReconnect_iterate (m : CieloConnectionManager) (n : Nat) :
    (scheduleReconnect^[n] m).reconnectAttempts = m.reconnectAttempts + n ∧
    (scheduleReconnect^[n] m).reconnectDelay = m.reconnectDelay ∧
    (scheduleReconnect^[n] m).pendingReconnects =
      m.pendingReconnects ++ (List.range n).map
        (fun i => min (m.reconnectDelay * 2 ^ (m.reconnectAttempts + i)) 300000) := by
  induction n with
  | zero => simp
  | succ k ih =>
    obtain ⟨ih1, ih2, ih3⟩ := ih
    rw [Function.iterate_succ_apply']
    refine ⟨?_, ?_, ?_⟩
    · simp [scheduleReconnect, ih1]
      omega
    · simp [scheduleReconnect, ih2]
    · simp only [scheduleReconnect, ih1, ih2, ih3, List.range_succ,
        List.map_append, List.map_cons, List.map_nil, List.append_assoc,
        Nat.add_sub_cancel]

/-- C6: starting from a reset manager, `n` consecutive reconnect schedules
produce the delay sequence `min(base * 2 ^ i, 300000)` for `i = 0 .. n-1`
(that is, `base, 2*base, 4*base, ...` capped at the 5-minute maximum),
which is non-decreasing; and after a successful `connect()` the attempt
counter is reset, so the next scheduled delay is the base delay again. -/
theorem c6_backoff (m : CieloConnectionManager) (n : Nat)
    (h0 : m.reconnectAttempts = 0) (hp : m.pendingReconnects = [])
    (hbase : m.reconnectDelay ≤ 300000) :
    (scheduleReconnect^[n] m).pendingReconnects =
      (List.range n).map (fun i => min (m.reconnectDelay * 2 ^ i) 300000) ∧
    List.Pairwise (· ≤ ·) (scheduleReconnect^[n] m).pendingReconnects ∧
    (scheduleReconnect
        (connectOutcome (scheduleReconnect^[n] m) true)).pendingReconnects.getLast?
      = some m.reconnectDelay := by
  obtain ⟨h1, h2, h3⟩ := scheduleReconnect_iterate m n
  have hpend : (scheduleReconnect^[n] m).pendingReconnects =
      (List.range n).map (fun i => min (m.reconnectDelay * 2 ^ i) 300000) := by
    rw [h3, hp, h0]
    simp
  refine ⟨hpend, ?_, ?_⟩
  · rw [hpend, List.pairwise_map]
    refine (List.pairwise_lt_range n).imp ?_
    intro a b hab
    exact min_le_min
      (Nat.mul_le_mul_left _ (Nat.pow_le_pow_right (by norm_num) (Nat.le_of_lt hab)))
      le_rfl
  · have hfin : (scheduleReconnect
        (connectOutcome (scheduleReconnect^[n] m) true)).pendingReconnects =
        (scheduleReconnect^[n] m).pendingReconnects ++
          [min ((scheduleReconnect^[n] m).reconnectDelay * 2 ^ 0) 300000] := by
      simp [scheduleReconnect, connectOutcome]
    rw [hfin, List.getLast?_concat, h2, pow_zero, Nat.mul_one,
      Nat.min_eq_left hbase]

/-- C6 witness: with base delay 5000 ms, three consecutive failures are
scheduled at 5000, 10000, 20000 ms (non-decreasing), and after a success
the next delay is 5000 ms again. -/
theorem c6_backoff_witness :
    ((scheduleReconnect^[3] ({} : CieloConnectionManager)).pendingReconnects =
      (List.range 3).map
        (fun i => min (({} : CieloConnectionManager).reconnectDelay * 2 ^ i) 300000)) ∧
    List.Pairwise (· ≤ ·)
      (scheduleReconnect^[3] ({} : CieloConnectionManager)).pendingReconnects ∧
    (scheduleReconnect
        (connectOutcome (scheduleReconnect^[3] ({} : CieloConnectionManager))
          true)).pendingReconnects.getLast?
      = some ({} : CieloConnectionManager).reconnectDelay :=
  c6_backoff {} 3 rfl rfl (by norm_num)

/-- C9 counterexample: the claim that a refresh strictly increases the
session expiry fails on the code: a refresh whose response carries the same
`expiresIn` as the stored session succeeds and leaves `expiresIn` at 1000,
not strictly larger — the code stores the response value verbatim. -/
theorem c9_counterexample :
    (establishConnection {}
        { sessionId := "S", userId := "U", accessToken := "A",
          refreshToken := "R", expiresIn := 1000 }).expiresIn = some 1000 ∧
    ((refreshAccessToken
        (establishConnection {}
          { sessionId := "S", userId := "U", accessToken := "A",
            refreshToken := "R", expiresIn := 1000 })
        none
        (some { accessToken := "A2", refreshToken := "R2",
                expiresIn := 1000 })).toOption.map
      (fun c => c.expiresIn)) = some (some 1000) := by
  decide

/-- C9 (amended): a successful token refresh after a login leaves the
session's `userId` and `sessionId` unchanged and replaces
`accessToken`/`refreshToken`/`expiresIn` with exactly the refresh
response's values; the stored expiry therefore strictly increases exactly
when the response's `expiresIn` exceeds the login's, which the code does
not enforce. -/
theorem c9_refresh_preserves_identity (conn : CieloAPIConnection)
    (d0 : LoginData) (arg : Option String) (d : RefreshData)
    (conn2 : CieloAPIConnection)
    (hok : refreshAccessToken (establishConnection conn d0) arg (some d) =
      .ok conn2) :
    conn2.userID = some d0.userId ∧
    conn2.sessionID = some d0.sessionId ∧
    conn2.accessToken = some d.accessToken ∧
    conn2.refreshToken = some d.refreshToken ∧
    conn2.expiresIn = some d.expiresIn ∧
    (establishConnection conn d0).expiresIn = some d0.expiresIn := by
  have hconn2 : ({ establishConnection conn d0 with
        accessToken := some d.accessToken
        refreshToken := some d.refreshToken
        expiresIn := some d.expiresIn } : CieloAPIConnection) = conn2 := by
    unfold refreshAccessToken at hok
    simp only [establishConnection] at hok ⊢
    split at hok
    · simpa using hok
    · split at hok
      · simpa using hok
      · exact Except.noConfusion hok
  rw [← hconn2]
  exact ⟨rfl, rfl, rfl, rfl, rfl, rfl⟩

/-- C9 witness: a concrete login followed by a refresh keeps `userId` and
`sessionId` and installs the response tokens. -/
theorem c9_refresh_preserves_identity_witness :
    ∃ conn2, refreshAccessToken
        (establishConnection {}
          { sessionId := "S", userId := "U", accessToken := "A",
            refreshToken := "R", expiresIn := 1000 })
        none
        (some { accessToken := "A2", refreshToken := "R2",
                expiresIn := 2000 }) = .ok conn2 ∧
      conn2.userID = some "U" ∧ conn2.sessionID = some "S" ∧
      conn2.expiresIn = some 2000 := by
  refine ⟨_, rfl, ?_⟩
  have := c9_refresh_preserves_identity {}
    { sessionId := "S", userId := "U", accessToken := "A",
      refreshToken := "R", expiresIn := 1000 }
    none
    { accessToken := "A2", refreshToken := "R2", expiresIn := 2000 }
    _ rfl
  exact ⟨this.1, this.2.1, this.2.2.2.2.1⟩

end NodeCielo
